import Mathlib

/-!
Verification development for the Airtable MCP server (`src/index.ts`).

The file shallowly embeds the server's tool-dispatch logic:
* `Json` models JavaScript/JSON values (numbers as integers; no claim here
  depends on floating-point formatting),
* `makeAirtableRequest` models the helper of the same name, taking the
  process environment's `AIRTABLE_API_KEY` value (read at each call, as the
  source does) and a network oracle `Net` describing how axios answers the
  single HTTP request; it returns the JS-level outcome together with the
  list of HTTP requests actually issued,
* `TOOLS` models the static tool catalog,
* `dispatch` models the `CallToolRequestSchema` handler: the `switch` over
  tool names plus the surrounding `try`/`catch` that converts any thrown
  error into a `ToolResult` with `isError = true`.
-/

set_option maxRecDepth 8000

namespace AirtableMCP

/-- JSON / JavaScript values.  Numbers are modelled as integers; object
fields keep insertion order, as JS objects do. -/
inductive Json where
  | null
  | bool (b : Bool)
  | num (n : Int)
  | str (s : String)
  | arr (elems : List Json)
  | obj (fields : List (String × Json))

/-- JavaScript truthiness of a defined value (`undefined` is handled at the
`Option Json` level by `jsTruthyOpt`). -/
def jsTruthy : Json → Bool
  | .null => false
  | .bool b => b
  | .num n => n != 0
  | .str s => s != ""
  | .arr _ => true
  | .obj _ => true

/-- Truthiness of a possibly-`undefined` value (`none` models `undefined`). -/
def jsTruthyOpt : Option Json → Bool
  | none => false
  | some v => jsTruthy v

mutual
/-- JavaScript `ToString` coercion used by template literals and by
`URLSearchParams.append`. -/
def jsToString : Json → String
  | .null => "null"
  | .bool b => cond b "true" "false"
  | .num n => toString n
  | .str s => s
  | .arr xs => String.intercalate "," (jsToStringElems xs)
  | .obj _ => "[object Object]"

/-- Array elements under JS `Array.prototype.toString`: `null` prints as the
empty string. -/
def jsToStringElems : List Json → List String
  | [] => []
  | .null :: xs => "" :: jsToStringElems xs
  | x :: xs => jsToString x :: jsToStringElems xs
end

/-- Template-literal interpolation `${v}`: `undefined` prints as the word
"undefined". -/
def jsTemplate : Option Json → String
  | none => "undefined"
  | some v => jsToString v

/-- Optional chaining `v?.k`: `null` (and non-objects) yield `undefined`. -/
def Json.chain : Json → String → Option Json
  | .obj fields, k => fields.lookup k
  | _, _ => none

/-- An HTTP response as seen by axios: status code and parsed JSON body. -/
structure AxiosResponse where
  status : Nat
  data : Json

/-- Errors thrown at the JS level.  `airtableAPIError` models the source's
`AirtableAPIError` class (message, optional `statusCode`, optional
`details`); `axiosError` models an error for which `axios.isAxiosError` is
true (optional response, transport-level message); `error` models a plain
`Error`. -/
inductive JsError where
  | airtableAPIError (message : String) (statusCode : Option Nat) (details : Option Json)
  | axiosError (response : Option AxiosResponse) (message : String)
  | error (message : String)

end AirtableMCP

namespace AirtableMCP

/-- Plain member access `v.k`: reading a property of `null` throws a
`TypeError`; reading a missing property of an object (or any property of a
primitive) yields `undefined`. -/
def Json.getMember : Json → String → Except JsError (Option Json)
  | .null, k => .error (.error ("Cannot read properties of null (reading \x27" ++ k ++ "\x27)"))
  | .obj fields, k => .ok (fields.lookup k)
  | _, _ => .ok none

/-- Member access on a possibly-`undefined` receiver, as in `args.baseId`
when `request.params.arguments` was omitted. -/
def jsGet (args : Option Json) (k : String) : Except JsError (Option Json) :=
  match args with
  | none => .error (.error ("Cannot read properties of undefined (reading \x27" ++ k ++ "\x27)"))
  | some j => Json.getMember j k

/-- Message carried by a thrown JS error (`error.message`). -/
def jsErrorMessage : JsError → String
  | .airtableAPIError m _ _ => m
  | .axiosError _ m => m
  | .error m => m

end AirtableMCP

namespace AirtableMCP

/-! JSON.stringify(-, null, 2): the pretty printer used for success texts. -/

/-- Four-digit hex rendering used for control-character escapes. -/
def hexDigitChar (n : Nat) : Char :=
  if n < 10 then Char.ofNat (48 + n) else Char.ofNat (87 + n)

/-- Hexadecimal rendering, two digits, lower case. -/
def hex2 (n : Nat) : String :=
  String.singleton (hexDigitChar ((n / 16) % 16)) ++ String.singleton (hexDigitChar (n % 16))

/-- JSON string-character escaping as performed by `JSON.stringify`. -/
def escapeJsonChar (c : Char) : String :=
  if c.toNat = 34 then "\\\""
  else if c.toNat = 92 then "\\\\"
  else if c.toNat = 8 then "\\b"
  else if c.toNat = 9 then "\\t"
  else if c.toNat = 10 then "\\n"
  else if c.toNat = 12 then "\\f"
  else if c.toNat = 13 then "\\r"
  else if c.toNat < 32 then "\\u00" ++ hex2 c.toNat
  else String.singleton c

/-- Quoted JSON string literal. -/
def quoteJson (s : String) : String :=
  "\"" ++ String.join (s.data.map escapeJsonChar) ++ "\""

/-- Indentation: `n` spaces. -/
def indentSpaces (n : Nat) : String :=
  String.mk (List.replicate n (Char.ofNat 32))

mutual
/-- Model of `JSON.stringify(v, null, 2)` at indentation level `ind`. -/
def stringifyAt (ind : Nat) : Json → String
  | .null => "null"
  | .bool b => cond b "true" "false"
  | .num n => toString n
  | .str s => quoteJson s
  | .arr [] => "[]"
  | .arr (x :: xs) =>
      "[\n" ++ String.intercalate ",\n" (stringifyElems (ind + 2) (x :: xs))
        ++ "\n" ++ indentSpaces ind ++ "]"
  | .obj [] => "\x7b\x7d"
  | .obj (f :: fs) =>
      "\x7b\n" ++ String.intercalate ",\n" (stringifyFields (ind + 2) (f :: fs))
        ++ "\n" ++ indentSpaces ind ++ "\x7d"

/-- Array elements, each on its own indented line. -/
def stringifyElems (ind : Nat) : List Json → List String
  | [] => []
  | x :: xs => (indentSpaces ind ++ stringifyAt ind x) :: stringifyElems ind xs

/-- Object fields, each on its own indented line. -/
def stringifyFields (ind : Nat) : List (String × Json) → List String
  | [] => []
  | (k, v) :: fs => (indentSpaces ind ++ quoteJson k ++ ": " ++ stringifyAt ind v) :: stringifyFields ind fs
end

/-- Top-level `JSON.stringify(v, null, 2)`. -/
def jsonStringify2 (j : Json) : String := stringifyAt 0 j

end AirtableMCP

namespace AirtableMCP

/-! URLSearchParams: an ordered multimap of string pairs with
form-urlencoded serialization. -/

/-- Percent-encoding of one UTF-8 byte under the
application/x-www-form-urlencoded serializer: ASCII alphanumerics and
`*-._` kept, space becomes `+`, everything else `%XX` (upper-case hex). -/
def formEncodeByte (b : UInt8) : String :=
  let n := b.toNat
  if (65 ≤ n ∧ n ≤ 90) ∨ (97 ≤ n ∧ n ≤ 122) ∨ (48 ≤ n ∧ n ≤ 57)
      ∨ n = 42 ∨ n = 45 ∨ n = 46 ∨ n = 95 then
    String.singleton (Char.ofNat n)
  else if n = 32 then "+"
  else
    "%" ++ String.singleton (if n / 16 < 10 then Char.ofNat (48 + n / 16) else Char.ofNat (55 + n / 16))
        ++ String.singleton (if n % 16 < 10 then Char.ofNat (48 + n % 16) else Char.ofNat (55 + n % 16))

/-- Form-urlencoding of a string (over its UTF-8 bytes). -/
def formEncode (s : String) : String :=
  String.join ((s.data.flatMap String.utf8EncodeChar).map formEncodeByte)

/-- Model of `URLSearchParams.toString()` over the appended pairs. -/
def urlParamsToString (pairs : List (String × String)) : String :=
  String.intercalate "&" (pairs.map fun kv => formEncode kv.1 ++ "=" ++ formEncode kv.2)

end AirtableMCP

namespace AirtableMCP

/-- HTTP methods used by the server. -/
inductive Method where
  | GET
  | POST
  | PATCH
  | DELETE
deriving DecidableEq

/-- One outbound HTTP request as assembled by `makeAirtableRequest`. -/
structure HttpRequest where
  method : Method
  url : String
  headers : List (String × String)
  data : Option Json

/-- Outcome of the single axios round trip.  `success d` models a 2xx
response with body `d` (axios' default `validateStatus` resolves exactly
the 2xx range); `failure e` models axios rejecting with the thrown value
`e` — a non-2xx response is an `axiosError` carrying `some` response, a
network-level failure is an `axiosError` carrying `none`. -/
inductive AxiosOutcome where
  | success (data : Json)
  | failure (e : JsError)

/-- A network oracle: how the remote end answers each request. -/
abbrev Net := HttpRequest → AxiosOutcome

/-- Fixed remote base URL (`AIRTABLE_API_BASE` in the source). -/
def AIRTABLE_API_BASE : String := "https://api.airtable.com/v0"

/-- The request object built by `makeAirtableRequest` before handing it to
axios: method, base-plus-endpoint URL, bearer and content-type headers. -/
def buildRequest (key : String) (endpoint : String) (method : Method) (data : Option Json) : HttpRequest :=
  ⟨method, AIRTABLE_API_BASE ++ endpoint,
    [("Authorization", "Bearer " ++ key), ("Content-Type", "application/json")], data⟩

/-- The chain `data?.error?.message` used to extract the remote-reported
error message from a response body. -/
def chainErrMessage (d : Json) : Option Json :=
  (Json.chain d "error").bind fun j => Json.chain j "message"

/-- The JS `||` fallback `extracted || fallback`: a truthy extracted value
is used (coerced to a string by the `Error` constructor), anything falsy
or absent falls back to the transport-level message. -/
def remoteMessage (extracted : Option Json) (fallback : String) : String :=
  match extracted with
  | some v => if jsTruthy v then jsToString v else fallback
  | none => fallback

/-- The `try`/`catch` around the single axios call (source lines 55-74):
a 2xx response returns `response.data`; an axios error is normalized to an
`AirtableAPIError` carrying `error.response?.data?.error?.message ||
error.message`, `error.response?.status` and `error.response?.data`; any
other thrown value is re-thrown unchanged. -/
def axiosResult (net : Net) (req : HttpRequest) : Except JsError Json :=
  match net req with
  | .success d => .ok d
  | .failure e =>
      match e with
      | .axiosError response msg =>
          .error (.airtableAPIError
            (remoteMessage (response.bind fun r => chainErrMessage r.data) msg)
            (response.map (·.status)) (response.map (·.data)))
      | _ => .error e

/-- Model of `makeAirtableRequest(endpoint, method, data)`.  `apiKey` is the
value of `process.env.AIRTABLE_API_KEY` at the moment of the call (the
source reads it inside the function body, on every call).  Returns the JS
outcome together with the list of HTTP requests issued. -/
def makeAirtableRequest (apiKey : Option String) (net : Net)
    (endpoint : String) (method : Method) (data : Option Json) :
    Except JsError Json × List HttpRequest :=
  match apiKey with
  | none =>
      (.error (.airtableAPIError "AIRTABLE_API_KEY environment variable is required" none none), [])
  | some key =>
      (axiosResult net (buildRequest key endpoint method data),
        [buildRequest key endpoint method data])

end AirtableMCP

namespace AirtableMCP

/-- Input schema of a tool descriptor: declared property names and the
`required` list.  Property types, descriptions and defaults are elided:
no claim depends on them. -/
structure InputSchema where
  properties : List String
  required : List String
deriving DecidableEq

/-- One tool descriptor from the `TOOLS` catalog. -/
structure ToolDef where
  name : String
  description : String
  inputSchema : InputSchema
deriving DecidableEq

/-- The static tool catalog (`TOOLS` in the source), in source order. -/
def TOOLS : List ToolDef := [
  ⟨"list_bases", "List all accessible Airtable bases", ⟨[], []⟩⟩,
  ⟨"list_tables", "List all tables in a base", ⟨["baseId"], ["baseId"]⟩⟩,
  ⟨"create_table", "Create a new table with fields",
    ⟨["baseId", "name", "description", "fields"], ["baseId", "name", "fields"]⟩⟩,
  ⟨"create_field", "Add a new field to a table",
    ⟨["baseId", "tableId", "name", "type", "options"], ["baseId", "tableId", "name", "type"]⟩⟩,
  ⟨"list_records", "Retrieve records from a table",
    ⟨["baseId", "tableId", "maxRecords", "view", "filterByFormula", "sort"], ["baseId", "tableId"]⟩⟩,
  ⟨"create_record", "Create a new record in a table",
    ⟨["baseId", "tableId", "fields"], ["baseId", "tableId", "fields"]⟩⟩,
  ⟨"update_record", "Update an existing record",
    ⟨["baseId", "tableId", "recordId", "fields"], ["baseId", "tableId", "recordId", "fields"]⟩⟩,
  ⟨"delete_record", "Delete a record",
    ⟨["baseId", "tableId", "recordId"], ["baseId", "tableId", "recordId"]⟩⟩,
  ⟨"search_records", "Find records matching criteria",
    ⟨["baseId", "tableId", "filterByFormula", "maxRecords"], ["baseId", "tableId", "filterByFormula"]⟩⟩,
  ⟨"get_record", "Get a single record by its ID",
    ⟨["baseId", "tableId", "recordId"], ["baseId", "tableId", "recordId"]⟩⟩]

/-- Descriptor lookup by name. -/
def findTool (n : String) : Option ToolDef :=
  TOOLS.find? fun t => t.name == n

end AirtableMCP

namespace AirtableMCP

/-- One content block of a `ToolResult`.  `text` is `Option String` because
the source can place a JS `undefined` there (`JSON.stringify` of a missing
projection). -/
structure ContentBlock where
  type : String
  text : Option String

/-- The result envelope of one tool call.  On success the source omits
`isError`, which reads back as falsy; we model it as `false`. -/
structure ToolResult where
  content : List ContentBlock
  isError : Bool

/-- A single-text-block result, `isError` absent/false. -/
def textResult (t : Option String) : ToolResult :=
  ⟨[⟨"text", t⟩], false⟩

/-- Static `list_bases` reply. -/
def listBasesText : String :=
  "Airtable API does not provide an endpoint to list bases. You need to specify the base ID directly."

/-- An object literal whose `undefined`-valued properties are dropped, as
axios' JSON serialization does for request bodies. -/
def jsObjOf (entries : List (String × Option Json)) : Json :=
  .obj (entries.filterMap fun kv => kv.2.map fun v => (kv.1, v))

/-! Per-tool request preparation (argument reads, query building, endpoint
and body assembly — everything evaluated before `makeAirtableRequest`),
and per-tool success-text production (everything evaluated after the
response arrives).  Member-access order follows the source. -/

/-- Indexed sort-term serialization: `args.sort.forEach` appending
`sort[i][field]` / `sort[i][direction]` pairs (source lines 420-425).
Accessing a property of a `null` array element throws. -/
def sortPairsAux : List Json → Nat → Except JsError (List (String × String))
  | [], _ => .ok []
  | item :: rest, i => do
      let f ← Json.getMember item "field"
      let d ← Json.getMember item "direction"
      let tail ← sortPairsAux rest (i + 1)
      pure (("sort[" ++ toString i ++ "][field]", jsTemplate f)
        :: ("sort[" ++ toString i ++ "][direction]", jsTemplate d) :: tail)

/-- Query-parameter building for `list_records` (source lines 416-425):
conditional appends for `maxRecords`, `view`, `filterByFormula`, then the
sort terms.  A truthy non-array `sort` throws (`forEach` is not a
function). -/
def listRecordsParams (args : Option Json) : Except JsError (List (String × String)) := do
  let mr ← jsGet args "maxRecords"
  let p : List (String × String) := if jsTruthyOpt mr then [("maxRecords", jsTemplate mr)] else []
  let v ← jsGet args "view"
  let p := if jsTruthyOpt v then p ++ [("view", jsTemplate v)] else p
  let f ← jsGet args "filterByFormula"
  let p := if jsTruthyOpt f then p ++ [("filterByFormula", jsTemplate f)] else p
  let s ← jsGet args "sort"
  match s with
  | some (.arr items) => do
      let sp ← sortPairsAux items 0
      pure (p ++ sp)
  | some v => if jsTruthy v then .error (.error "args.sort.forEach is not a function") else pure p
  | none => pure p

/-- Prepared call: endpoint, method, body. -/
abbrev PreparedCall := String × Method × Option Json

def listTablesPre (args : Option Json) : Except JsError PreparedCall := do
  let b ← jsGet args "baseId"
  pure ("/meta/bases/" ++ jsTemplate b ++ "/tables", .GET, none)

def createTablePre (args : Option Json) : Except JsError PreparedCall := do
  let b ← jsGet args "baseId"
  let n ← jsGet args "name"
  let d ← jsGet args "description"
  let f ← jsGet args "fields"
  pure ("/meta/bases/" ++ jsTemplate b ++ "/tables", .POST,
    some (jsObjOf [("name", n), ("description", d), ("fields", f)]))

def createFieldPre (args : Option Json) : Except JsError PreparedCall := do
  let b ← jsGet args "baseId"
  let t ← jsGet args "tableId"
  let n ← jsGet args "name"
  let ty ← jsGet args "type"
  let o ← jsGet args "options"
  pure ("/meta/bases/" ++ jsTemplate b ++ "/tables/" ++ jsTemplate t ++ "/fields", .POST,
    some (jsObjOf [("name", n), ("type", ty), ("options", o)]))

def listRecordsPre (args : Option Json) : Except JsError PreparedCall := do
  let params ← listRecordsParams args
  let b ← jsGet args "baseId"
  let t ← jsGet args "tableId"
  pure ("/" ++ jsTemplate b ++ "/" ++ jsTemplate t ++ "?" ++ urlParamsToString params, .GET, none)

def createRecordPre (args : Option Json) : Except JsError PreparedCall := do
  let b ← jsGet args "baseId"
  let t ← jsGet args "tableId"
  let f ← jsGet args "fields"
  pure ("/" ++ jsTemplate b ++ "/" ++ jsTemplate t, .POST, some (jsObjOf [("fields", f)]))

def updateRecordPre (args : Option Json) : Except JsError PreparedCall := do
  let b ← jsGet args "baseId"
  let t ← jsGet args "tableId"
  let r ← jsGet args "recordId"
  let f ← jsGet args "fields"
  pure ("/" ++ jsTemplate b ++ "/" ++ jsTemplate t ++ "/" ++ jsTemplate r, .PATCH,
    some (jsObjOf [("fields", f)]))

def deleteRecordPre (args : Option Json) : Except JsError PreparedCall := do
  let b ← jsGet args "baseId"
  let t ← jsGet args "tableId"
  let r ← jsGet args "recordId"
  pure ("/" ++ jsTemplate b ++ "/" ++ jsTemplate t ++ "/" ++ jsTemplate r, .DELETE, none)

/-- `search_records` query building (source lines 488-490): unconditional
`filterByFormula` append (an absent argument is coerced to the literal
string "undefined" by `URLSearchParams.append`), then conditional
`maxRecords`. -/
def searchRecordsPre (args : Option Json) : Except JsError PreparedCall := do
  let f ← jsGet args "filterByFormula"
  let p : List (String × String) := [("filterByFormula", jsTemplate f)]
  let m ← jsGet args "maxRecords"
  let p := if jsTruthyOpt m then p ++ [("maxRecords", jsTemplate m)] else p
  let b ← jsGet args "baseId"
  let t ← jsGet args "tableId"
  pure ("/" ++ jsTemplate b ++ "/" ++ jsTemplate t ++ "?" ++ urlParamsToString p, .GET, none)

def getRecordPre (args : Option Json) : Except JsError PreparedCall := do
  let b ← jsGet args "baseId"
  let t ← jsGet args "tableId"
  let r ← jsGet args "recordId"
  pure ("/" ++ jsTemplate b ++ "/" ++ jsTemplate t ++ "/" ++ jsTemplate r, .GET, none)

/-- Success text of `list_tables`: `JSON.stringify(tablesData.tables, null, 2)`
(a missing projection yields an undefined text). -/
def listTablesPost (d : Json) : Except JsError (Option String) := do
  let proj ← Json.getMember d "tables"
  pure (proj.map jsonStringify2)

/-- Success text of `list_records` and `search_records`:
`JSON.stringify(data.records, null, 2)`. -/
def recordsPost (d : Json) : Except JsError (Option String) := do
  let proj ← Json.getMember d "records"
  pure (proj.map jsonStringify2)

def createTablePost (args : Option Json) (d : Json) : Except JsError (Option String) := do
  let n ← jsGet args "name"
  pure (some ("Table \x27" ++ jsTemplate n ++ "\x27 created successfully:\n" ++ jsonStringify2 d))

def createFieldPost (args : Option Json) (d : Json) : Except JsError (Option String) := do
  let n ← jsGet args "name"
  pure (some ("Field \x27" ++ jsTemplate n ++ "\x27 created successfully:\n" ++ jsonStringify2 d))

def createRecordPost (d : Json) : Except JsError (Option String) :=
  .ok (some ("Record created successfully:\n" ++ jsonStringify2 d))

def updateRecordPost (d : Json) : Except JsError (Option String) :=
  .ok (some ("Record updated successfully:\n" ++ jsonStringify2 d))

/-- Success text of `delete_record`: the response body is discarded; only
`recordId` is embedded. -/
def deleteRecordPost (args : Option Json) (_d : Json) : Except JsError (Option String) := do
  let r ← jsGet args "recordId"
  pure (some ("Record " ++ jsTemplate r ++ " deleted successfully"))

def getRecordPost (d : Json) : Except JsError (Option String) :=
  .ok (some (jsonStringify2 d))

/-- Post-processing of the awaited response: an error propagates, a
response body is turned into the branch's single text block. -/
def runCall (result : Except JsError Json × List HttpRequest)
    (post : Json → Except JsError (Option String)) :
    Except JsError ToolResult × List HttpRequest :=
  match result with
  | (.error e, log) => (.error e, log)
  | (.ok d, log) =>
      match post d with
      | .error e => (.error e, log)
      | .ok t => (.ok (textResult t), log)

/-- Shared shape of the nine networked branches: prepare the call, issue it
through `makeAirtableRequest`, then compute the single success text.  Any
error short-circuits and is re-thrown to the dispatcher's `catch`. -/
def runTool (apiKey : Option String) (net : Net)
    (pre : Except JsError PreparedCall) (post : Json → Except JsError (Option String)) :
    Except JsError ToolResult × List HttpRequest :=
  match pre with
  | .error e => (.error e, [])
  | .ok (endpoint, method, body) =>
      runCall (makeAirtableRequest apiKey net endpoint method body) post

/-- The `switch (name)` of the call-tool handler (source lines 353-519),
before the surrounding `catch`. -/
def dispatchRaw (apiKey : Option String) (net : Net) (name : String) (args : Option Json) :
    Except JsError ToolResult × List HttpRequest :=
  match name with
  | "list_bases" => (.ok (textResult (some listBasesText)), [])
  | "list_tables" => runTool apiKey net (listTablesPre args) listTablesPost
  | "create_table" => runTool apiKey net (createTablePre args) (createTablePost args)
  | "create_field" => runTool apiKey net (createFieldPre args) (createFieldPost args)
  | "list_records" => runTool apiKey net (listRecordsPre args) recordsPost
  | "create_record" => runTool apiKey net (createRecordPre args) createRecordPost
  | "update_record" => runTool apiKey net (updateRecordPre args) updateRecordPost
  | "delete_record" => runTool apiKey net (deleteRecordPre args) (deleteRecordPost args)
  | "search_records" => runTool apiKey net (searchRecordsPre args) recordsPost
  | "get_record" => runTool apiKey net (getRecordPre args) getRecordPost
  | _ => (.error (.error ("Unknown tool: " ++ name)), [])

/-- Rendering of an optional status code inside a template literal:
`${undefined}` prints "undefined". -/
def jsStatusText : Option Nat → String
  | none => "undefined"
  | some n => toString n

/-- The error text produced by the dispatcher's `catch` (source lines
521-523): `AirtableAPIError` gets the status-coded prefix, anything else
the plain `Error:` prefix. -/
def caughtErrorText : JsError → String
  | .airtableAPIError m s _ => "Airtable API Error (" ++ jsStatusText s ++ "): " ++ m
  | e => "Error: " ++ jsErrorMessage e

/-- The complete call-tool handler: the `switch` wrapped in `try`/`catch`;
every thrown error becomes a single-text-block result with
`isError = true`.  Also returns the list of HTTP requests issued. -/
def dispatch (apiKey : Option String) (net : Net) (name : String) (args : Option Json) :
    ToolResult × List HttpRequest :=
  match dispatchRaw apiKey net name args with
  | (.ok r, log) => (r, log)
  | (.error e, log) => (⟨[⟨"text", some (caughtErrorText e)⟩], true⟩, log)

/-! Executable substring and starts-with checks used to state
"the message contains / starts with ..." facts. -/

/-- Boolean test: `needle` occurs at the very start of `hay`. -/
def isSegAt : List Char → List Char → Bool
  | [], _ => true
  | _ :: _, [] => false
  | a :: as, b :: bs => a == b && isSegAt as bs

/-- Boolean test: `needle` occurs contiguously somewhere in `hay`. -/
def hasSeg (needle : List Char) : List Char → Bool
  | [] => isSegAt needle []
  | b :: bs => isSegAt needle (b :: bs) || hasSeg needle bs

/-- String containment (contiguous substring). -/
def strContains (hay needle : String) : Bool :=
  hasSeg needle.data hay.data

/-- String starts-with check. -/
def strStartsWith (hay pre : String) : Bool :=
  isSegAt pre.data hay.data

end AirtableMCP

namespace AirtableMCP

/-! Supporting lemmas. -/

theorem exceptBind_ok {α β : Type} (a : α) (f : α → Except JsError β) :
    (Except.ok a >>= f) = f a := rfl

theorem exceptBind_error {α β : Type} (e : JsError) (f : α → Except JsError β) :
    ((Except.error e : Except JsError α) >>= f) = Except.error e := rfl

theorem exceptPure {α : Type} (a : α) : (pure a : Except JsError α) = Except.ok a := rfl

theorem strData_append (s t : String) : (s ++ t).data = s.data ++ t.data := by
  cases s; cases t; rfl

theorem stringExt {s t : String} (h : s.data = t.data) : s = t := by
  cases s; cases t; cases h; rfl

theorem strAppend_assoc (a b c : String) : a ++ b ++ c = a ++ (b ++ c) :=
  stringExt (by rw [strData_append, strData_append, strData_append, strData_append,
    List.append_assoc])

theorem isSegAt_append (l rest : List Char) : isSegAt l (l ++ rest) = true := by
  induction l with
  | nil => rfl
  | cons a as ih => simp [isSegAt, ih]

theorem hasSeg_of_isSegAt (n h : List Char) (hh : isSegAt n h = true) : hasSeg n h = true := by
  cases h with
  | nil => simpa [hasSeg] using hh
  | cons b bs => simp [hasSeg, hh]

theorem hasSeg_cons (n : List Char) (a : Char) (t : List Char) (hh : hasSeg n t = true) :
    hasSeg n (a :: t) = true := by
  simp [hasSeg, hh]

theorem hasSeg_append_left (pre n t : List Char) (hh : hasSeg n t = true) :
    hasSeg n (pre ++ t) = true := by
  induction pre with
  | nil => simpa using hh
  | cons a as ih => simpa [List.cons_append] using hasSeg_cons n a (as ++ t) ih

theorem strContains_middle (a b c : String) : strContains (a ++ b ++ c) b = true := by
  have h2 : hasSeg b.data (b.data ++ c.data) = true :=
    hasSeg_of_isSegAt _ _ (isSegAt_append _ _)
  have hdata : (a ++ b ++ c).data = a.data ++ (b.data ++ c.data) := by
    rw [strData_append, strData_append, List.append_assoc]
  rw [strContains, hdata]
  exact hasSeg_append_left _ _ _ h2

theorem strStartsWith_append (a b : String) : strStartsWith (a ++ b) a = true := by
  rw [strStartsWith, strData_append]
  exact isSegAt_append _ _

theorem getMember_of_ne_null {d : Json} (hd : d ≠ .null) (k : String) :
    Json.getMember d k = .ok (Json.chain d k) := by
  cases d with
  | null => exact absurd rfl hd
  | bool b => rfl
  | num n => rfl
  | str s => rfl
  | arr xs => rfl
  | obj fs => rfl

/-- The request log of any credentialed `makeAirtableRequest` call is the
single built request, whatever the network does. -/
theorem makeAirtableRequest_log (key : String) (net : Net) (endpoint : String)
    (method : Method) (body : Option Json) :
    (makeAirtableRequest (some key) net endpoint method body).2 =
      [buildRequest key endpoint method body] := rfl

/-- Shape of `makeAirtableRequest` when axios rejects with a response (a
non-2xx status): an `AirtableAPIError` carrying the extracted-or-fallback
message, the status, and the raw payload. -/
theorem makeAirtableRequest_non2xx_aux (key : String) (net : Net) (endpoint : String)
    (method : Method) (body : Option Json) (status : Nat) (respData : Json) (msg : String)
    (hn : net (buildRequest key endpoint method body) =
      .failure (.axiosError (some ⟨status, respData⟩) msg)) :
    makeAirtableRequest (some key) net endpoint method body =
      (.error (.airtableAPIError (remoteMessage (chainErrMessage respData) msg)
        (some status) (some respData)), [buildRequest key endpoint method body]) := by
  have h0 : makeAirtableRequest (some key) net endpoint method body =
      (axiosResult net (buildRequest key endpoint method body),
        [buildRequest key endpoint method body]) := rfl
  rw [h0]
  unfold axiosResult
  rw [hn]
  exact rfl

set_option maxHeartbeats 2000000 in
/-- Every branch of the dispatch `switch` is the static `list_bases` reply,
a `runTool` call, or the unknown-tool throw. -/
theorem dispatchRaw_cases (apiKey : Option String) (net : Net) (name : String)
    (args : Option Json) :
    dispatchRaw apiKey net name args = (.ok (textResult (some listBasesText)), []) ∨
    (∃ pre post, dispatchRaw apiKey net name args = runTool apiKey net pre post) ∨
    dispatchRaw apiKey net name args = (.error (.error ("Unknown tool: " ++ name)), []) := by
  unfold dispatchRaw
  split <;> first
    | exact Or.inl rfl
    | exact Or.inr (Or.inl ⟨_, _, rfl⟩)
    | exact Or.inr (Or.inr rfl)

/-- A successful `runCall` result is always a single-text-block
`textResult`. -/
theorem runCall_ok_shape {x : Except JsError Json × List HttpRequest}
    {post : Json → Except JsError (Option String)}
    {r : ToolResult} {log : List HttpRequest}
    (h : runCall x post = (.ok r, log)) : ∃ t, r = textResult t := by
  rcases x with ⟨res, lg⟩
  cases res with
  | error e => simp [runCall] at h
  | ok d =>
      cases hpost : post d with
      | error e => rw [runCall] at h; simp [hpost] at h
      | ok t =>
          rw [runCall] at h
          simp only [hpost, Prod.mk.injEq] at h
          exact ⟨t, ((Except.ok.injEq _ _).mp h.1).symm⟩

/-- A successful `runTool` result is always a single-text-block
`textResult`. -/
theorem runTool_ok_shape {apiKey : Option String} {net : Net}
    {pre : Except JsError PreparedCall} {post : Json → Except JsError (Option String)}
    {r : ToolResult} {log : List HttpRequest}
    (h : runTool apiKey net pre post = (.ok r, log)) : ∃ t, r = textResult t := by
  unfold runTool at h
  split at h
  · simp at h
  · exact runCall_ok_shape h

/-- The request log survives the dispatcher's `catch` unchanged. -/
theorem dispatch_snd (apiKey : Option String) (net : Net) (name : String) (args : Option Json) :
    (dispatch apiKey net name args).2 = (dispatchRaw apiKey net name args).2 := by
  rcases h : dispatchRaw apiKey net name args with ⟨res, log⟩
  cases res <;> simp [dispatch, h]

/-- The log component of `runCall` is the log of its argument. -/
theorem runCall_snd (res : Except JsError Json) (log : List HttpRequest)
    (post : Json → Except JsError (Option String)) :
    (runCall (res, log) post).2 = log := by
  cases res with
  | error e => rfl
  | ok d => rw [runCall]; cases post d <;> rfl

/-- The request log of a credentialed `runTool` whose preparation succeeded
is the single built request. -/
theorem runTool_snd_ok (key : String) (net : Net) (endpoint : String) (method : Method)
    (body : Option Json) (post : Json → Except JsError (Option String))
    (pre : Except JsError PreparedCall) (hpre : pre = .ok (endpoint, method, body)) :
    (runTool (some key) net pre post).2 = [buildRequest key endpoint method body] := by
  subst hpre
  have h0 : runTool (some key) net (.ok (endpoint, method, body)) post =
      runCall (axiosResult net (buildRequest key endpoint method body),
        [buildRequest key endpoint method body]) post := rfl
  rw [h0, runCall_snd]

set_option maxHeartbeats 2000000 in
/-- On a name outside the catalog, the `switch` reaches its `default`
branch: a thrown `Error`, no request issued. -/
theorem dispatchRaw_unknown (apiKey : Option String) (net : Net) (name : String)
    (args : Option Json) (h : name ∉ TOOLS.map (·.name)) :
    dispatchRaw apiKey net name args = (.error (.error ("Unknown tool: " ++ name)), []) := by
  simp only [TOOLS, List.map_cons, List.map_nil, List.mem_cons, List.not_mem_nil, or_false,
    not_or] at h
  obtain ⟨h1, h2, h3, h4, h5, h6, h7, h8, h9, h10⟩ := h
  unfold dispatchRaw
  split
  · exact absurd rfl h1
  · exact absurd rfl h2
  · exact absurd rfl h3
  · exact absurd rfl h4
  · exact absurd rfl h5
  · exact absurd rfl h6
  · exact absurd rfl h7
  · exact absurd rfl h8
  · exact absurd rfl h9
  · exact absurd rfl h10
  · rfl

end AirtableMCP

namespace AirtableMCP

/-- C1: for every tool name not among the ten catalog descriptors,
`dispatch(name, arguments)` returns a `ToolResult` with `isError = true`
and a single text block describing the failure
("Error: Unknown tool: name"), and issues no outbound HTTP request: an
unrecognized name is a terminal local dispatch error, never forwarded to
the network. -/
theorem unknown_tool_is_local_error (apiKey : Option String) (net : Net) (name : String)
    (args : Option Json) (h : name ∉ TOOLS.map (·.name)) :
    dispatch apiKey net name args =
      (⟨[⟨"text", some ("Error: Unknown tool: " ++ name)⟩], true⟩, []) := by
  have hs : ("Error: " : String) ++ ("Unknown tool: " ++ name) = "Error: Unknown tool: " ++ name := by
    rw [← strAppend_assoc]
    exact rfl
  have hraw := dispatchRaw_unknown apiKey net name args h
  unfold dispatch
  rw [hraw]
  show ((⟨[⟨"text", some ("Error: " ++ ("Unknown tool: " ++ name))⟩], true⟩ : ToolResult),
    ([] : List HttpRequest)) = _
  rw [hs]

/-- Witness for C1: the concrete unlisted name "nonexistent_tool". -/
theorem unknown_tool_is_local_error_witness :
    dispatch (some "key") (fun _ => .success Json.null) "nonexistent_tool" (some (.obj [])) =
      (⟨[⟨"text", some "Error: Unknown tool: nonexistent_tool"⟩], true⟩, []) ∧
    "nonexistent_tool" ∉ TOOLS.map (·.name) :=
  ⟨by
    rw [unknown_tool_is_local_error (some "key") (fun _ => .success Json.null)
      "nonexistent_tool" (some (.obj [])) (by decide)]
    exact rfl,
   by decide⟩

/-- C2 (amended): with the credential absent at the moment of the call,
`makeAirtableRequest` fails with the `AirtableAPIError`
"AIRTABLE_API_KEY environment variable is required" and issues no HTTP
request (the log is empty); the check runs inside every call — the source
reads `process.env.AIRTABLE_API_KEY` in the function body — not once
before the first call of the process. -/
theorem missing_credential_fails_before_network (net : Net) (endpoint : String)
    (method : Method) (body : Option Json) :
    makeAirtableRequest none net endpoint method body =
      (.error (.airtableAPIError "AIRTABLE_API_KEY environment variable is required" none none),
        []) := rfl

/-- Counterexample for C2's "checked once before the first call of the
process": the outcome of each call depends on the environment value at
that call.  A call made while the variable holds "key" succeeds, and a
later call in the same process made after the variable is unset fails the
absence check — so the check is per-request, not performed once before the
first call. -/
theorem credential_check_is_lazy_cex :
    (makeAirtableRequest (some "key") (fun _ => .success (Json.obj [])) "/app1/Table1" .GET
      none).1 = .ok (Json.obj []) ∧
    makeAirtableRequest none (fun _ => .success (Json.obj [])) "/app1/Table1" .GET none =
      (.error (.airtableAPIError "AIRTABLE_API_KEY environment variable is required" none none),
        []) :=
  ⟨rfl, rfl⟩

/-- C3 (amended): `filterByFormula` is declared required in the
`search_records` schema and not in the `list_records` schema, but the
dispatcher performs no argument validation: a `search_records` invocation
lacking `filterByFormula` does not fail — it issues an outbound GET whose
query carries the literal string `filterByFormula=undefined`. -/
theorem search_formula_required_in_schema_only :
    ((findTool "search_records").map fun t => t.inputSchema.required.contains "filterByFormula")
      = some true ∧
    ((findTool "list_records").map fun t => t.inputSchema.required.contains "filterByFormula")
      = some false ∧
    (dispatch (some "key") (fun _ => .success (Json.obj [])) "search_records"
        (some (.obj [("baseId", .str "b1"), ("tableId", .str "t1")]))).2
      = [buildRequest "key" "/b1/t1?filterByFormula=undefined" .GET none] ∧
    (dispatch (some "key") (fun _ => .success (Json.obj [])) "search_records"
        (some (.obj [("baseId", .str "b1"), ("tableId", .str "t1")]))).1.isError = false :=
  ⟨rfl, rfl, rfl, rfl⟩

/-- Counterexample for C3: invoking `search_records` without
`filterByFormula` does not fail validation before a network call — exactly
one outbound request is issued, and the result is not even an error. -/
theorem search_without_formula_calls_network_cex :
    (dispatch (some "key") (fun _ => .success (Json.obj [])) "search_records"
        (some (.obj [("baseId", .str "b1"), ("tableId", .str "t1")]))).2.length = 1 ∧
    (dispatch (some "key") (fun _ => .success (Json.obj [])) "search_records"
        (some (.obj [("baseId", .str "b1"), ("tableId", .str "t1")]))).1.isError = false :=
  ⟨rfl, rfl⟩

/-- C4 (amended): a network-level failure (axios error with no response)
is not propagated unchanged: it is wrapped into an `AirtableAPIError`
carrying the underlying transport message, with no status code fabricated
(`statusCode = none`) and no payload.  Only a thrown value that is not an
axios error is re-thrown unchanged. -/
theorem network_failure_wrapping_behavior (key : String) (net : Net) (endpoint : String)
    (method : Method) (body : Option Json) (msg : String) :
    (net (buildRequest key endpoint method body) = .failure (.axiosError none msg) →
      makeAirtableRequest (some key) net endpoint method body =
        (.error (.airtableAPIError msg none none), [buildRequest key endpoint method body])) ∧
    (∀ m, net (buildRequest key endpoint method body) = .failure (.error m) →
      makeAirtableRequest (some key) net endpoint method body =
        (.error (.error m), [buildRequest key endpoint method body])) ∧
    (∀ em es ed, net (buildRequest key endpoint method body) = .failure (.airtableAPIError em es ed) →
      makeAirtableRequest (some key) net endpoint method body =
        (.error (.airtableAPIError em es ed), [buildRequest key endpoint method body])) := by
  refine ⟨fun hn => ?_, fun m hn => ?_, fun em es ed hn => ?_⟩ <;>
    · have h0 : makeAirtableRequest (some key) net endpoint method body =
          (axiosResult net (buildRequest key endpoint method body),
            [buildRequest key endpoint method body]) := rfl
      rw [h0]
      unfold axiosResult
      rw [hn]
      try exact rfl

/-- Witness for C4 (amended), first clause: a concrete connection failure
("Network Error", no response) is wrapped with no status code. -/
theorem network_failure_wrapping_behavior_witness :
    makeAirtableRequest (some "key") (fun _ => .failure (.axiosError none "Network Error"))
        "/app1/Table1" .GET none =
      (.error (.airtableAPIError "Network Error" none none),
        [buildRequest "key" "/app1/Table1" .GET none]) :=
  (network_failure_wrapping_behavior "key" (fun _ => .failure (.axiosError none "Network Error"))
    "/app1/Table1" .GET none "Network Error").1 rfl

/-- Counterexample for C4 as stated: on a network-level failure with no
response, the value delivered to the caller is an `AirtableAPIError`, not
the underlying axios failure unchanged — the Remote Client does wrap it. -/
theorem network_failure_wrapped_cex :
    makeAirtableRequest (some "key") (fun _ => .failure (.axiosError none "Network Error"))
        "/app1/Table1" .GET none =
      (.error (.airtableAPIError "Network Error" none none),
        [buildRequest "key" "/app1/Table1" .GET none]) ∧
    JsError.airtableAPIError "Network Error" none none ≠ JsError.axiosError none "Network Error" :=
  ⟨rfl, fun hcontra => JsError.noConfusion hcontra⟩

/-- C5: a remote response with a non-2xx status makes the Remote Client
fail with a `RemoteError` (`AirtableAPIError`) carrying the HTTP status
code, the raw error payload, and the remote-reported error message — a
nonempty `data.error.message` string is used as-is, and when the payload
reports none the transport-level error message is used instead. -/
theorem non2xx_yields_remote_error (key : String) (net : Net) (endpoint : String)
    (method : Method) (body : Option Json) (status : Nat) (respData : Json) (msg : String)
    (hn : net (buildRequest key endpoint method body) =
      .failure (.axiosError (some ⟨status, respData⟩) msg)) :
    ∃ M, makeAirtableRequest (some key) net endpoint method body =
        (.error (.airtableAPIError M (some status) (some respData)),
          [buildRequest key endpoint method body]) ∧
      (∀ s, chainErrMessage respData = some (.str s) → s ≠ "" → M = s) ∧
      (chainErrMessage respData = none → M = msg) := by
  refine ⟨remoteMessage (chainErrMessage respData) msg,
    makeAirtableRequest_non2xx_aux key net endpoint method body status respData msg hn, ?_, ?_⟩
  · intro s hs hne
    rw [remoteMessage.eq_def, hs]
    simp [jsTruthy, jsToString, hne]
  · intro h0
    rw [remoteMessage.eq_def, h0]

/-- Witness for C5: a concrete 404 whose payload reports "Record not
found". -/
theorem non2xx_yields_remote_error_witness :
    ∃ M, makeAirtableRequest (some "key")
        (fun _ => .failure (.axiosError
          (some ⟨404, Json.obj [("error", Json.obj [("message", Json.str "Record not found")])]⟩)
          "Request failed with status code 404"))
        "/app1/Table1/rec1" .GET none =
        (.error (.airtableAPIError M (some 404)
            (some (Json.obj [("error", Json.obj [("message", Json.str "Record not found")])]))),
          [buildRequest "key" "/app1/Table1/rec1" .GET none]) ∧
      (∀ s, chainErrMessage (Json.obj [("error", Json.obj [("message", Json.str "Record not found")])])
          = some (.str s) → s ≠ "" → M = s) ∧
      (chainErrMessage (Json.obj [("error", Json.obj [("message", Json.str "Record not found")])])
          = none → M = "Request failed with status code 404") :=
  non2xx_yields_remote_error "key"
    (fun _ => .failure (.axiosError
      (some ⟨404, Json.obj [("error", Json.obj [("message", Json.str "Record not found")])]⟩)
      "Request failed with status code 404"))
    "/app1/Table1/rec1" .GET none 404
    (Json.obj [("error", Json.obj [("message", Json.str "Record not found")])])
    "Request failed with status code 404" rfl

/-- Any raw dispatch error is caught and formatted by `caughtErrorText`. -/
theorem dispatch_of_raw_error {apiKey : Option String} {net : Net} {name : String}
    {args : Option Json} {e : JsError} {log : List HttpRequest}
    (h : dispatchRaw apiKey net name args = (.error e, log)) :
    dispatch apiKey net name args = (⟨[⟨"text", some (caughtErrorText e)⟩], true⟩, log) := by
  unfold dispatch
  rw [h]

/-- C6 (amended): the `catch` block's prefix dichotomy is by thrown-error
type, not by remoteness — an `AirtableAPIError` (which includes the local
missing-credential failure and response-less network failures) is rendered
with the status-coded prefix "Airtable API Error ({statusCode}): ", and
every other thrown value with the plain prefix "Error: " followed by its
message. -/
theorem error_text_dichotomy_by_type (apiKey : Option String) (net : Net) (name : String)
    (args : Option Json) (e : JsError) (log : List HttpRequest)
    (h : dispatchRaw apiKey net name args = (.error e, log)) :
    (dispatch apiKey net name args).1 = ⟨[⟨"text", some (caughtErrorText e)⟩], true⟩ ∧
    (∀ m s d, e = .airtableAPIError m s d →
      caughtErrorText e = "Airtable API Error (" ++ jsStatusText s ++ "): " ++ m) ∧
    ((∀ m s d, e ≠ .airtableAPIError m s d) →
      caughtErrorText e = "Error: " ++ jsErrorMessage e) := by
  refine ⟨?_, ?_, ?_⟩
  · rw [dispatch_of_raw_error h]
  · intro m s d hm
    subst hm
    rfl
  · intro hne
    cases e with
    | airtableAPIError m s d => exact absurd rfl (hne m s d)
    | axiosError r m => rfl
    | error m => rfl

/-- Witness for C6 (amended): the unknown-tool throw, a plain `Error`,
gets the message-only prefix. -/
theorem error_text_dichotomy_by_type_witness :
    (dispatch (some "key") (fun _ => .success Json.null) "bogus_tool" (some (.obj []))).1 =
      ⟨[⟨"text", some (caughtErrorText (.error "Unknown tool: bogus_tool"))⟩], true⟩ ∧
    (∀ m s d, JsError.error "Unknown tool: bogus_tool" = .airtableAPIError m s d →
      caughtErrorText (.error "Unknown tool: bogus_tool")
        = "Airtable API Error (" ++ jsStatusText s ++ "): " ++ m) ∧
    ((∀ m s d, JsError.error "Unknown tool: bogus_tool" ≠ .airtableAPIError m s d) →
      caughtErrorText (.error "Unknown tool: bogus_tool")
        = "Error: " ++ jsErrorMessage (.error "Unknown tool: bogus_tool")) :=
  error_text_dichotomy_by_type (some "key") (fun _ => .success Json.null) "bogus_tool"
    (some (.obj [])) (.error "Unknown tool: bogus_tool") [] rfl

/-- Counterexample for C6 as stated: the missing-credential failure is a
local failure — the dispatcher issues no outbound request (the log is
empty) — yet its text block carries the status-coded remote prefix
"Airtable API Error (", not the message-only prefix "Error: ".  A caller
therefore cannot always tell a remote API rejection from a dispatcher-side
failure by the prefix. -/
theorem local_config_failure_status_prefixed_cex :
    dispatch none (fun _ => .success (Json.obj [])) "get_record"
        (some (.obj [("baseId", .str "b1"), ("tableId", .str "t1"), ("recordId", .str "rec1")])) =
      (⟨[⟨"text",
          some "Airtable API Error (undefined): AIRTABLE_API_KEY environment variable is required"⟩],
        true⟩, []) ∧
    strStartsWith "Airtable API Error (undefined): AIRTABLE_API_KEY environment variable is required"
      "Error: " = false ∧
    strStartsWith "Airtable API Error (undefined): AIRTABLE_API_KEY environment variable is required"
      "Airtable API Error (" = true :=
  ⟨rfl, rfl, rfl⟩

/-- C7: whenever the single remote call of a tool invocation is answered
with a non-2xx status (the oracle rejects every request with that status),
and at least one request was issued, the dispatcher returns `isError =
true` with a single text block whose message contains the decimal status
code. -/
theorem non2xx_dispatch_surfaces_status (name : String) (args : Option Json) (key : String)
    (status : Nat) (respData : Json) (msg : String) (net : Net)
    (hnet : ∀ r, net r = .failure (.axiosError (some ⟨status, respData⟩) msg))
    (hlog : (dispatch (some key) net name args).2 ≠ []) :
    (dispatch (some key) net name args).1.isError = true ∧
    ∃ s, (dispatch (some key) net name args).1.content = [⟨"text", some s⟩] ∧
      strContains s (toString status) = true := by
  rcases dispatchRaw_cases (some key) net name args with hc | ⟨pre, post, hc⟩ | hc
  · exact absurd (by rw [dispatch_snd (some key) net name args, hc]) hlog
  · cases hpre : pre with
    | error e' =>
        refine absurd ?_ hlog
        rw [dispatch_snd (some key) net name args, hc, hpre]
        rfl
    | ok pc =>
        obtain ⟨endpoint, method, body⟩ := pc
        have hm := makeAirtableRequest_non2xx_aux key net endpoint method body status respData
          msg (hnet _)
        have hraw : dispatchRaw (some key) net name args =
            (.error (.airtableAPIError (remoteMessage (chainErrMessage respData) msg)
                (some status) (some respData)),
              [buildRequest key endpoint method body]) := by
          rw [hc, hpre]
          show runCall (makeAirtableRequest (some key) net endpoint method body) post = _
          rw [hm]
          exact rfl
        have hd := dispatch_of_raw_error hraw
        have hfmt : caughtErrorText (.airtableAPIError
            (remoteMessage (chainErrMessage respData) msg) (some status) (some respData)) =
            "Airtable API Error (" ++ toString status
              ++ ("): " ++ remoteMessage (chainErrMessage respData) msg) := by
          show "Airtable API Error (" ++ jsStatusText (some status) ++ "): "
              ++ remoteMessage (chainErrMessage respData) msg = _
          rw [strAppend_assoc]
          exact rfl
        refine ⟨by rw [hd], ⟨_, by rw [hd], ?_⟩⟩
        rw [hfmt]
        exact strContains_middle _ _ _
  · exact absurd (by rw [dispatch_snd (some key) net name args, hc]) hlog

/-- Witness for C7: the concrete 404 on `get_record` named by the spec. -/
theorem non2xx_dispatch_surfaces_status_witness :
    (dispatch (some "key")
        (fun _ => .failure (.axiosError (some ⟨404, Json.obj []⟩)
          "Request failed with status code 404"))
        "get_record"
        (some (.obj [("baseId", .str "b1"), ("tableId", .str "t1"),
          ("recordId", .str "rec1")]))).1.isError = true ∧
    ∃ s, (dispatch (some "key")
        (fun _ => .failure (.axiosError (some ⟨404, Json.obj []⟩)
          "Request failed with status code 404"))
        "get_record"
        (some (.obj [("baseId", .str "b1"), ("tableId", .str "t1"),
          ("recordId", .str "rec1")]))).1.content = [⟨"text", some s⟩] ∧
      strContains s "404" = true :=
  non2xx_dispatch_surfaces_status "get_record"
    (some (.obj [("baseId", .str "b1"), ("tableId", .str "t1"), ("recordId", .str "rec1")]))
    "key" 404 (Json.obj []) "Request failed with status code 404"
    (fun _ => .failure (.axiosError (some ⟨404, Json.obj []⟩)
      "Request failed with status code 404"))
    (fun _ => rfl)
    (by
      rw [show (dispatch (some "key")
          (fun _ => .failure (.axiosError (some ⟨404, Json.obj []⟩)
            "Request failed with status code 404"))
          "get_record"
          (some (.obj [("baseId", .str "b1"), ("tableId", .str "t1"),
            ("recordId", .str "rec1")]))).2
        = [buildRequest "key" "/b1/t1/rec1" .GET none] from rfl]
      exact List.cons_ne_nil _ _)

end AirtableMCP

namespace AirtableMCP

/-- Any raw dispatch success is returned unchanged by the handler. -/
theorem dispatch_of_raw_ok {apiKey : Option String} {net : Net} {name : String}
    {args : Option Json} {r : ToolResult} {log : List HttpRequest}
    (h : dispatchRaw apiKey net name args = (.ok r, log)) :
    dispatch apiKey net name args = (r, log) := by
  unfold dispatch
  rw [h]

/-- Evaluation of a networked branch when the oracle always answers 2xx
with body `d` and the post-processing succeeds. -/
theorem runTool_success (key : String) (net : Net) (d : Json)
    (hnet : ∀ r, net r = .success d)
    (pre : Except JsError PreparedCall) (endpoint : String) (method : Method)
    (body : Option Json) (hpre : pre = .ok (endpoint, method, body))
    (post : Json → Except JsError (Option String)) (t : Option String)
    (hpost : post d = .ok t) :
    runTool (some key) net pre post =
      (.ok (textResult t), [buildRequest key endpoint method body]) := by
  subst hpre
  show runCall (axiosResult net (buildRequest key endpoint method body),
    [buildRequest key endpoint method body]) post = _
  have hx : axiosResult net (buildRequest key endpoint method body) = .ok d := by
    unfold axiosResult
    rw [hnet]
  rw [hx]
  show (match post d with
    | Except.error e => (Except.error e, [buildRequest key endpoint method body])
    | Except.ok t => (Except.ok (textResult t), [buildRequest key endpoint method body])) = _
  rw [hpost]

end AirtableMCP

namespace AirtableMCP

/-- C8 (amended): with the credential present and the remote answering
2xx with payload `d`, each tool's single text block is — `get_record`: the
pretty-printed payload; `list_tables` / `list_records` / `search_records`:
the pretty-printed `tables` / `records` projection of the payload (absent
projection gives an undefined text); `create_table`, `create_field`,
`create_record`, `update_record`: a human-readable prefix sentence
followed by the pretty-printed payload; `delete_record`: only the sentence
"Record {recordId} deleted successfully", with no serialized payload. -/
theorem success_text_shapes (d : Json) (key : String) (net : Net)
    (hnet : ∀ r, net r = .success d) (hd : d ≠ .null) :
    (dispatch (some key) net "get_record"
        (some (.obj [("baseId", .str "b1"), ("tableId", .str "t1"),
          ("recordId", .str "rec1")]))).1
      = textResult (some (jsonStringify2 d)) ∧
    (dispatch (some key) net "list_tables" (some (.obj [("baseId", .str "b1")]))).1
      = textResult ((Json.chain d "tables").map jsonStringify2) ∧
    (dispatch (some key) net "list_records"
        (some (.obj [("baseId", .str "b1"), ("tableId", .str "t1")]))).1
      = textResult ((Json.chain d "records").map jsonStringify2) ∧
    (dispatch (some key) net "search_records"
        (some (.obj [("baseId", .str "b1"), ("tableId", .str "t1"),
          ("filterByFormula", .str "x")]))).1
      = textResult ((Json.chain d "records").map jsonStringify2) ∧
    (dispatch (some key) net "create_table"
        (some (.obj [("baseId", .str "b1"), ("name", .str "T1"), ("fields", .arr [])]))).1
      = textResult (some ("Table \x27T1\x27 created successfully:\n" ++ jsonStringify2 d)) ∧
    (dispatch (some key) net "create_field"
        (some (.obj [("baseId", .str "b1"), ("tableId", .str "t1"), ("name", .str "F1"),
          ("type", .str "singleLineText")]))).1
      = textResult (some ("Field \x27F1\x27 created successfully:\n" ++ jsonStringify2 d)) ∧
    (dispatch (some key) net "create_record"
        (some (.obj [("baseId", .str "b1"), ("tableId", .str "t1"),
          ("fields", .obj [])]))).1
      = textResult (some ("Record created successfully:\n" ++ jsonStringify2 d)) ∧
    (dispatch (some key) net "update_record"
        (some (.obj [("baseId", .str "b1"), ("tableId", .str "t1"),
          ("recordId", .str "rec1"), ("fields", .obj [])]))).1
      = textResult (some ("Record updated successfully:\n" ++ jsonStringify2 d)) ∧
    (dispatch (some key) net "delete_record"
        (some (.obj [("baseId", .str "b1"), ("tableId", .str "t1"),
          ("recordId", .str "rec1")]))).1
      = textResult (some "Record rec1 deleted successfully") := by
  have hpostTables : listTablesPost d = .ok ((Json.chain d "tables").map jsonStringify2) := by
    unfold listTablesPost
    rw [getMember_of_ne_null hd]
    exact rfl
  have hpostRecords : recordsPost d = .ok ((Json.chain d "records").map jsonStringify2) := by
    unfold recordsPost
    rw [getMember_of_ne_null hd]
    exact rfl
  refine ⟨?_, ?_, ?_, ?_, ?_, ?_, ?_, ?_, ?_⟩
  · have hraw : dispatchRaw (some key) net "get_record"
        (some (.obj [("baseId", .str "b1"), ("tableId", .str "t1"),
          ("recordId", .str "rec1")])) =
        (.ok (textResult (some (jsonStringify2 d))), [buildRequest key "/b1/t1/rec1" .GET none]) := by
      show runTool (some key) net
        (getRecordPre (some (.obj [("baseId", .str "b1"), ("tableId", .str "t1"),
          ("recordId", .str "rec1")]))) getRecordPost = _
      exact runTool_success key net d hnet _ "/b1/t1/rec1" .GET none rfl _ _ rfl
    rw [dispatch_of_raw_ok hraw]
  · have hraw : dispatchRaw (some key) net "list_tables" (some (.obj [("baseId", .str "b1")])) =
        (.ok (textResult ((Json.chain d "tables").map jsonStringify2)),
          [buildRequest key "/meta/bases/b1/tables" .GET none]) := by
      show runTool (some key) net (listTablesPre (some (.obj [("baseId", .str "b1")])))
        listTablesPost = _
      exact runTool_success key net d hnet _ "/meta/bases/b1/tables" .GET none rfl _ _ hpostTables
    rw [dispatch_of_raw_ok hraw]
  · have hraw : dispatchRaw (some key) net "list_records"
        (some (.obj [("baseId", .str "b1"), ("tableId", .str "t1")])) =
        (.ok (textResult ((Json.chain d "records").map jsonStringify2)),
          [buildRequest key "/b1/t1?" .GET none]) := by
      show runTool (some key) net
        (listRecordsPre (some (.obj [("baseId", .str "b1"), ("tableId", .str "t1")])))
        recordsPost = _
      exact runTool_success key net d hnet _ "/b1/t1?" .GET none rfl _ _ hpostRecords
    rw [dispatch_of_raw_ok hraw]
  · have hraw : dispatchRaw (some key) net "search_records"
        (some (.obj [("baseId", .str "b1"), ("tableId", .str "t1"),
          ("filterByFormula", .str "x")])) =
        (.ok (textResult ((Json.chain d "records").map jsonStringify2)),
          [buildRequest key "/b1/t1?filterByFormula=x" .GET none]) := by
      show runTool (some key) net
        (searchRecordsPre (some (.obj [("baseId", .str "b1"), ("tableId", .str "t1"),
          ("filterByFormula", .str "x")]))) recordsPost = _
      exact runTool_success key net d hnet _ "/b1/t1?filterByFormula=x" .GET none rfl _ _
        hpostRecords
    rw [dispatch_of_raw_ok hraw]
  · have hraw : dispatchRaw (some key) net "create_table"
        (some (.obj [("baseId", .str "b1"), ("name", .str "T1"), ("fields", .arr [])])) =
        (.ok (textResult (some ("Table \x27T1\x27 created successfully:\n" ++ jsonStringify2 d))),
          [buildRequest key "/meta/bases/b1/tables" .POST
            (some (.obj [("name", .str "T1"), ("fields", .arr [])]))]) := by
      show runTool (some key) net
        (createTablePre (some (.obj [("baseId", .str "b1"), ("name", .str "T1"),
          ("fields", .arr [])])))
        (createTablePost (some (.obj [("baseId", .str "b1"), ("name", .str "T1"),
          ("fields", .arr [])]))) = _
      exact runTool_success key net d hnet _ "/meta/bases/b1/tables" .POST
        (some (.obj [("name", .str "T1"), ("fields", .arr [])])) rfl _ _ rfl
    rw [dispatch_of_raw_ok hraw]
  · have hraw : dispatchRaw (some key) net "create_field"
        (some (.obj [("baseId", .str "b1"), ("tableId", .str "t1"), ("name", .str "F1"),
          ("type", .str "singleLineText")])) =
        (.ok (textResult (some ("Field \x27F1\x27 created successfully:\n" ++ jsonStringify2 d))),
          [buildRequest key "/meta/bases/b1/tables/t1/fields" .POST
            (some (.obj [("name", .str "F1"), ("type", .str "singleLineText")]))]) := by
      show runTool (some key) net
        (createFieldPre (some (.obj [("baseId", .str "b1"), ("tableId", .str "t1"),
          ("name", .str "F1"), ("type", .str "singleLineText")])))
        (createFieldPost (some (.obj [("baseId", .str "b1"), ("tableId", .str "t1"),
          ("name", .str "F1"), ("type", .str "singleLineText")]))) = _
      exact runTool_success key net d hnet _ "/meta/bases/b1/tables/t1/fields" .POST
        (some (.obj [("name", .str "F1"), ("type", .str "singleLineText")])) rfl _ _ rfl
    rw [dispatch_of_raw_ok hraw]
  · have hraw : dispatchRaw (some key) net "create_record"
        (some (.obj [("baseId", .str "b1"), ("tableId", .str "t1"), ("fields", .obj [])])) =
        (.ok (textResult (some ("Record created successfully:\n" ++ jsonStringify2 d))),
          [buildRequest key "/b1/t1" .POST (some (.obj [("fields", .obj [])]))]) := by
      show runTool (some key) net
        (createRecordPre (some (.obj [("baseId", .str "b1"), ("tableId", .str "t1"),
          ("fields", .obj [])]))) createRecordPost = _
      exact runTool_success key net d hnet _ "/b1/t1" .POST
        (some (.obj [("fields", .obj [])])) rfl _ _ rfl
    rw [dispatch_of_raw_ok hraw]
  · have hraw : dispatchRaw (some key) net "update_record"
        (some (.obj [("baseId", .str "b1"), ("tableId", .str "t1"), ("recordId", .str "rec1"),
          ("fields", .obj [])])) =
        (.ok (textResult (some ("Record updated successfully:\n" ++ jsonStringify2 d))),
          [buildRequest key "/b1/t1/rec1" .PATCH (some (.obj [("fields", .obj [])]))]) := by
      show runTool (some key) net
        (updateRecordPre (some (.obj [("baseId", .str "b1"), ("tableId", .str "t1"),
          ("recordId", .str "rec1"), ("fields", .obj [])]))) updateRecordPost = _
      exact runTool_success key net d hnet _ "/b1/t1/rec1" .PATCH
        (some (.obj [("fields", .obj [])])) rfl _ _ rfl
    rw [dispatch_of_raw_ok hraw]
  · have hraw : dispatchRaw (some key) net "delete_record"
        (some (.obj [("baseId", .str "b1"), ("tableId", .str "t1"),
          ("recordId", .str "rec1")])) =
        (.ok (textResult (some "Record rec1 deleted successfully")),
          [buildRequest key "/b1/t1/rec1" .DELETE none]) := by
      show runTool (some key) net
        (deleteRecordPre (some (.obj [("baseId", .str "b1"), ("tableId", .str "t1"),
          ("recordId", .str "rec1")])))
        (deleteRecordPost (some (.obj [("baseId", .str "b1"), ("tableId", .str "t1"),
          ("recordId", .str "rec1")]))) = _
      exact runTool_success key net d hnet _ "/b1/t1/rec1" .DELETE none rfl _ _ rfl
    rw [dispatch_of_raw_ok hraw]

/-- Witness for C8 (amended), `delete_record` clause, at a concrete
payload. -/
theorem success_text_shapes_witness :
    (dispatch (some "key") (fun _ => .success (Json.obj [("id", Json.str "rec1")]))
        "delete_record"
        (some (.obj [("baseId", .str "b1"), ("tableId", .str "t1"),
          ("recordId", .str "rec1")]))).1
      = textResult (some "Record rec1 deleted successfully") :=
  (success_text_shapes (Json.obj [("id", Json.str "rec1")]) "key"
    (fun _ => .success (Json.obj [("id", Json.str "rec1")])) (fun _ => rfl)
    (fun hcontra => Json.noConfusion hcontra)).2.2.2.2.2.2.2.2

/-- Counterexample for C8 as stated: `delete_record` reaches the remote
API and succeeds, yet its ToolResult does not serialize the remote JSON
payload at all — the single text block is only the human-readable
sentence, and the pretty-printed payload does not occur in it. -/
theorem delete_record_omits_payload_cex :
    (dispatch (some "key")
        (fun _ => .success (Json.obj [("id", Json.str "rec1"), ("deleted", Json.bool true)]))
        "delete_record"
        (some (.obj [("baseId", .str "b1"), ("tableId", .str "t1"),
          ("recordId", .str "rec1")]))).1
      = textResult (some "Record rec1 deleted successfully") ∧
    strContains "Record rec1 deleted successfully"
      (jsonStringify2 (Json.obj [("id", Json.str "rec1"), ("deleted", Json.bool true)])) = false :=
  ⟨rfl, rfl⟩

end AirtableMCP

namespace AirtableMCP

/-- Spec-side description of the indexed sort query parameters: the sort
term at position `i` contributes the two pairs `sort[i][field]` and
`sort[i][direction]`, in list order. -/
def specSortPairs : List (String × String) → Nat → List (String × String)
  | [], _ => []
  | p :: rest, i =>
      ("sort[" ++ toString i ++ "][field]", p.1)
        :: ("sort[" ++ toString i ++ "][direction]", p.2) :: specSortPairs rest (i + 1)

/-- A `{field, direction}` sort term as a JSON argument object. -/
def sortItemJson (p : String × String) : Json :=
  .obj [("field", .str p.1), ("direction", .str p.2)]

/-- `list_records` arguments carrying base "b1", table "t1" and the given
sort list. -/
def sortArgs (sorts : List (String × String)) : Option Json :=
  some (.obj [("baseId", .str "b1"), ("tableId", .str "t1"),
    ("sort", .arr (sorts.map sortItemJson))])

/-- The `forEach` append loop produces exactly the spec-side indexed
pairs. -/
theorem sortPairsAux_spec (sorts : List (String × String)) (i : Nat) :
    sortPairsAux (sorts.map sortItemJson) i = .ok (specSortPairs sorts i) := by
  induction sorts generalizing i with
  | nil => rfl
  | cons p rest ih =>
      show sortPairsAux (sortItemJson p :: rest.map sortItemJson) i = _
      rw [sortPairsAux]
      show (do
        let tail ← sortPairsAux (rest.map sortItemJson) (i + 1)
        pure (("sort[" ++ toString i ++ "][field]", p.1)
          :: ("sort[" ++ toString i ++ "][direction]", p.2) :: tail) : Except JsError _) = _
      rw [ih]
      exact rfl

/-- C9: a `list_records` invocation carrying a sort list serializes the
sort term at position `i` as the two indexed query parameters
`sort[i][field]` and `sort[i][direction]`, preserving list order, and the
single outbound GET carries exactly those parameters in its query; in
particular `sort = [{field: "Name", direction: "asc"}]` yields the pairs
`sort[0][field]=Name` and `sort[0][direction]=asc`. -/
theorem sort_terms_serialized_indexed (sorts : List (String × String)) (key : String)
    (net : Net) :
    listRecordsParams (sortArgs sorts) = .ok (specSortPairs sorts 0) ∧
    (dispatch (some key) net "list_records" (sortArgs sorts)).2 =
      [buildRequest key ("/b1/t1?" ++ urlParamsToString (specSortPairs sorts 0)) .GET none] ∧
    specSortPairs [("Name", "asc")] 0 =
      [("sort[0][field]", "Name"), ("sort[0][direction]", "asc")] := by
  have h1 : listRecordsParams (sortArgs sorts) = .ok (specSortPairs sorts 0) := by
    show (do
      let sp ← sortPairsAux (sorts.map sortItemJson) 0
      pure (([] : List (String × String)) ++ sp) : Except JsError _) = _
    rw [sortPairsAux_spec]
    show Except.ok ([] ++ specSortPairs sorts 0) = _
    rw [List.nil_append]
  have hpre : listRecordsPre (sortArgs sorts) =
      .ok ("/b1/t1?" ++ urlParamsToString (specSortPairs sorts 0), .GET, none) := by
    unfold listRecordsPre
    rw [h1]
    exact rfl
  refine ⟨h1, ?_, rfl⟩
  rw [dispatch_snd (some key) net "list_records" (sortArgs sorts)]
  show (runTool (some key) net (listRecordsPre (sortArgs sorts)) recordsPost).2 = _
  exact runTool_snd_ok key net _ .GET none recordsPost _ hpre

/-- C10: every ToolResult produced by the call-tool handler — any tool
name, any arguments, any credential state, any network behavior, success
or error path — contains exactly one content block, and that block has
type "text". -/
theorem tool_result_single_text_block (apiKey : Option String) (net : Net) (name : String)
    (args : Option Json) :
    ∃ t, (dispatch apiKey net name args).1.content = [⟨"text", t⟩] := by
  rcases h : dispatchRaw apiKey net name args with ⟨res, log⟩
  cases res with
  | error e =>
      exact ⟨some (caughtErrorText e), by rw [dispatch_of_raw_error h]⟩
  | ok r =>
      have hshape : ∃ t, r = textResult t := by
        rcases dispatchRaw_cases apiKey net name args with h2 | ⟨pre, post, h2⟩ | h2
        · rw [h2] at h
          injection h with h1 hlog
          injection h1 with h1
          exact ⟨_, h1.symm⟩
        · rw [h2] at h
          exact runTool_ok_shape h
        · rw [h2] at h
          injection h with h1 hlog
          exact Except.noConfusion h1
      obtain ⟨t, ht⟩ := hshape
      subst ht
      refine ⟨t, ?_⟩
      rw [dispatch_of_raw_ok h]
      exact rfl

end AirtableMCP
